import Mathlib

set_option autoImplicit false

/-!
Shallow embedding of `ding/framework/middleware/league_coordinator.py`
(class `LeagueCoordinator`) and proofs about its handlers.

Modelling conventions:
* Python wall-clock `time()` values are rationals (`ℚ`); each handler takes
  the current time as an explicit argument.
* Python's `None`-initialised timestamp fields become `Option ℚ`.
* Python exceptions (`ZeroDivisionError` from `% 0` and `/ 0`, `TypeError`
  from arithmetic on `None`) are explicit error outcomes: a handler returns
  the state reached at the point of failure together with the error.
* The league (`BaseLeague`) is an external collaborator: it is a parameter
  consisting of its active-player id list and its `get_job_info` function.
* Side effects (`task.emit`, `league.update_payoff`, writer `add_scalar`)
  are collected in output lists rather than performed.
* The handlers run single-threadedly here; the `Lock` in the source only
  serialises the greeting critical section, which is atomic in this model.
-/

namespace LeagueCoordinator

/-- Python runtime errors the coordinator's handlers can raise. -/
inductive PyErr
  | zeroDivision
  | typeError
deriving Repr, DecidableEq

/-- The fields of the league's `Job` dataclass that the coordinator touches:
`launch_player` (set by the league), `job_no`, `is_eval`, `actor_id`
(set by `_on_actor_greeting`). -/
structure Job where
  launch_player : String
  job_no : Nat
  is_eval : Bool
  actor_id : Option String
deriving Repr, DecidableEq

/-- A learner's player metadata (payload of `LEARNER_SEND_META`);
opaque to the coordinator, forwarded to the league. -/
structure PlayerMeta where
  player_id : String
deriving Repr, DecidableEq

/-- The league collaborator interface used by the coordinator:
`active_players_ids` and `get_job_info`.
`get_job_info` is Modelled from the spec: the league's job factory is not
under `src/`; per the spec, a job is "created by League Model on request"
for the requested player, with the evaluation flag derived later by the
dispatcher. -/
structure League where
  active_players_ids : List String
  get_job_info : String → Job

/-- Effects emitted by the handlers: the dispatch event of
`_on_actor_greeting`, and the league calls of `_on_actor_job` and
`_on_learner_meta`. -/
inductive Event
  | dispatch (actor_id : String) (job : Job)
  | updatePayoff (job : Job)
  | updateActivePlayer (m : PlayerMeta)
  | createHistoricalPlayer (m : PlayerMeta)
deriving Repr, DecidableEq

/-- One `writer.add_scalar(tag, value, global_step)` call. -/
structure Metric where
  tag : String
  value : ℚ
  step : ℚ
deriving Repr, DecidableEq

/-- One `env_trajectories` entry of `data.train_data`; only the number of
trajectories matters to the coordinator. -/
structure EnvTrajectories where
  trajectories : List Unit
deriving Repr, DecidableEq

/-- The payload of `ACTOR_SEND_DATA`. -/
structure DataBatch where
  train_data : List EnvTrajectories
deriving Repr, DecidableEq

/-- The trajectory count of a batch: the double loop of `_count_data`. -/
def countTraj (d : DataBatch) : Nat :=
  (d.train_data.map (fun e => e.trajectories.length)).sum

/-- The mutable state of a `LeagueCoordinator` instance. -/
structure CoordState where
  total_send_jobs : Nat
  total_recv_jobs : Nat
  eval_frequency : Nat
  running_jobs : List (String × Job)
  last_collect_time : Option ℚ
  total_collect_time : Option ℚ
  traj_num : Nat
  last_get_data_time : Option ℚ
  total_get_data_time : ℚ
  pre_collect_finished : Bool
deriving Repr, DecidableEq

/-- The state out of `LeagueCoordinator.__init__`. -/
def init : CoordState :=
  { total_send_jobs := 0
    total_recv_jobs := 0
    eval_frequency := 10
    running_jobs := []
    last_collect_time := none
    total_collect_time := none
    traj_num := 0
    last_get_data_time := none
    total_get_data_time := 0
    pre_collect_finished := false }

/-- Result of one handler invocation: the state at return (or at the point
of failure), the events emitted, the metrics written, and the error if the
handler raised. -/
structure HOut where
  state : CoordState
  events : List Event
  metrics : List Metric
  err : Option PyErr
deriving Repr, DecidableEq

/-- Python dict assignment `d[k] = v`: overwrite in place, else append. -/
def dictSet (k : String) (v : Job) : List (String × Job) → List (String × Job)
  | [] => [(k, v)]
  | (k', v') :: rest =>
      if k' = k then (k, v) :: rest else (k', v') :: dictSet k v rest

/-- Python dict lookup `d[k]` (as an option). -/
def dictGet (k : String) : List (String × Job) → Option Job
  | [] => none
  | (k', v') :: rest => if k' = k then some v' else dictGet k rest

/-- The running-jobs key `"actor_{}".format(actor_id)`. -/
def actorKey (a : String) : String := "actor_" ++ a

/-- Handler `_on_actor_greeting(actor_id)`: lazily initialise the collect-time
references; under the lock, pick the player at index
`total_send_jobs % player_num` (a `ZeroDivisionError` if there are no
active players), get a job for it, stamp it with the sequence number and
bump the counter; outside the lock set the eval flag, attach the actor id,
record the job in `running_jobs` and emit the dispatch event. -/
def on_actor_greeting (L : League) (now : ℚ) (actor_id : String)
    (s : CoordState) : HOut :=
  let s1 : CoordState :=
    { s with
      last_collect_time := some (s.last_collect_time.getD now)
      total_collect_time := some (s.total_collect_time.getD 0) }
  let player_num := L.active_players_ids.length
  if h : player_num = 0 then
    { state := s1, events := [], metrics := [], err := some .zeroDivision }
  else
    let player_id := L.active_players_ids.get
      ⟨s1.total_send_jobs % player_num,
       Nat.mod_lt _ (Nat.pos_of_ne_zero h)⟩
    let job0 := L.get_job_info player_id
    let job1 := { job0 with job_no := s1.total_send_jobs }
    let s2 := { s1 with total_send_jobs := s1.total_send_jobs + 1 }
    let job2 :=
      if 0 < job1.job_no ∧ job1.job_no % s2.eval_frequency = 0 then
        { job1 with is_eval := true }
      else job1
    let job3 := { job2 with actor_id := some actor_id }
    let s3 := { s2 with
      running_jobs := dictSet (actorKey actor_id) job3 s2.running_jobs }
    { state := s3, events := [.dispatch actor_id job3], metrics := [],
      err := none }

/-- Handler `_on_actor_job(job)`: bump the received counter, read the old
reference, overwrite it with the current time, accumulate the gap into
`total_collect_time` (a `TypeError` if either time field is still `None`),
report the average seconds-per-job and forward the job to
`league.update_payoff`. -/
def on_actor_job (now : ℚ) (job : Job) (s : CoordState) : HOut :=
  let s1 := { s with total_recv_jobs := s.total_recv_jobs + 1 }
  let old_time := s1.last_collect_time
  let s2 := { s1 with last_collect_time := some now }
  match old_time, s2.total_collect_time with
  | some ot, some tct =>
      let s3 := { s2 with total_collect_time := some (tct + (now - ot)) }
      { state := s3, events := [.updatePayoff job],
        metrics := [{ tag := "coordinator_collect_job_speed-total_recv_jobs"
                      value := (tct + (now - ot)) / (s3.total_recv_jobs : ℚ)
                      step := (s3.total_recv_jobs : ℚ) }],
        err := none }
  | _, _ => { state := s2, events := [], metrics := [], err := some .typeError }

/-- Handler `_on_learner_meta(player_meta)`: forward to the league. -/
def on_learner_meta (m : PlayerMeta) (s : CoordState) : HOut :=
  { state := s, events := [.updateActivePlayer m, .createHistoricalPlayer m],
    metrics := [], err := none }

/-- Handler `_count_data(data)`: lazily initialise `last_get_data_time`; if the
accumulated timer has reached `60 * 10` seconds and the warm-up flag is
still unset, set it and reset the timer to zero; accumulate the elapsed
time since the previous call; after warm-up, count the batch's
trajectories and report the instantaneous and cumulative rates (a
`ZeroDivisionError` when a divisor is zero, raised while formatting the
log line, before any metric is written). -/
def count_data (now : ℚ) (data : DataBatch) (s : CoordState) : HOut :=
  let s1 := { s with last_get_data_time := some (s.last_get_data_time.getD now) }
  let s2 :=
    if 60 * 10 ≤ s1.total_get_data_time ∧ s1.pre_collect_finished = false then
      { s1 with pre_collect_finished := true, total_get_data_time := 0 }
    else s1
  let finish_get_data_time := now
  let current_get_data_time := finish_get_data_time - (s2.last_get_data_time.getD now)
  let s3 := { s2 with
    total_get_data_time := s2.total_get_data_time + current_get_data_time
    last_get_data_time := some finish_get_data_time }
  if s3.pre_collect_finished then
    let current_traj_num := countTraj data
    let s4 := { s3 with traj_num := s3.traj_num + current_traj_num }
    if current_get_data_time = 0 then
      { state := s4, events := [], metrics := [], err := some .zeroDivision }
    else if s4.total_get_data_time = 0 then
      { state := s4, events := [], metrics := [], err := some .zeroDivision }
    else
      { state := s4, events := [],
        metrics :=
          [{ tag := "current_traj_speed-total_recv_trajs"
             value := (current_traj_num : ℚ) / current_get_data_time
             step := s4.total_get_data_time },
           { tag := "total_traj_speed-total_recv_trajs"
             value := (s4.traj_num : ℚ) / s4.total_get_data_time
             step := s4.total_get_data_time }],
        err := none }
  else
    { state := s3, events := [], metrics := [], err := none }

/-- One event delivered to the coordinator, with its wall-clock time. -/
inductive Input
  | greeting (now : ℚ) (actor_id : String)
  | actorJob (now : ℚ) (job : Job)
  | dataArrived (now : ℚ) (data : DataBatch)
  | learnerMeta (m : PlayerMeta)

/-- Dispatch one input to its handler. -/
def step (L : League) (s : CoordState) : Input → HOut
  | .greeting now a => on_actor_greeting L now a s
  | .actorJob now j => on_actor_job now j s
  | .dataArrived now d => count_data now d s
  | .learnerMeta m => on_learner_meta m s

/-- Run a sequence of inputs, accumulating events and metrics; an uncaught
handler error stops the run with the state at the point of failure. -/
def runTrace (L : League) (s : CoordState) : List Input → HOut
  | [] => { state := s, events := [], metrics := [], err := none }
  | i :: rest =>
      let r := step L s i
      match r.err with
      | some e => { state := r.state, events := r.events,
                    metrics := r.metrics, err := some e }
      | none =>
          let r2 := runTrace L r.state rest
          { state := r2.state, events := r.events ++ r2.events,
            metrics := r.metrics ++ r2.metrics, err := r2.err }

/-! ### Basic lemmas about the dict model and the key format -/

theorem actorKey_injective : Function.Injective actorKey := by
  intro a b h
  have h2 := congrArg String.data h
  simp only [actorKey, String.data_append] at h2
  exact String.ext (List.append_cancel_left h2)

@[simp]
theorem dictGet_dictSet_self (k : String) (v : Job) (d : List (String × Job)) :
    dictGet k (dictSet k v d) = some v := by
  induction d with
  | nil => simp [dictSet, dictGet]
  | cons p rest ih =>
      by_cases h : p.1 = k <;> simp [dictSet, dictGet, h, ih]

theorem dictGet_dictSet_ne (k k' : String) (hk : k ≠ k') (v : Job)
    (d : List (String × Job)) :
    dictGet k (dictSet k' v d) = dictGet k d := by
  induction d with
  | nil => simp [dictSet, dictGet, Ne.symm hk]
  | cons p rest ih =>
      by_cases h : p.1 = k' <;> simp [dictSet, dictGet, h, ih, Ne.symm hk]

theorem keys_dictSet (k : String) (v : Job) (d : List (String × Job)) :
    (dictSet k v d).map Prod.fst =
      if k ∈ d.map Prod.fst then d.map Prod.fst else d.map Prod.fst ++ [k] := by
  induction d with
  | nil => simp [dictSet]
  | cons p rest ih =>
      by_cases h : p.1 = k
      · simp [dictSet, h]
      · have hk : ¬k = p.1 := fun hh => h hh.symm
        by_cases h2 : k ∈ rest.map Prod.fst <;>
          simp [dictSet, h, hk, h2, ih]

theorem nodup_keys_dictSet (k : String) (v : Job) (d : List (String × Job))
    (hd : (d.map Prod.fst).Nodup) : ((dictSet k v d).map Prod.fst).Nodup := by
  rw [keys_dictSet]
  by_cases h : k ∈ d.map Prod.fst
  · simpa [h]
  · simpa [h, List.nodup_append] using hd

theorem dictGet_eq_none_iff (k : String) (d : List (String × Job)) :
    dictGet k d = none ↔ k ∉ d.map Prod.fst := by
  induction d with
  | nil => simp [dictGet]
  | cons p rest ih =>
      by_cases h : p.1 = k <;> simp [dictGet, h, ih, Ne.symm, eq_comm]

/-! ### Characterisation of a successful greeting and of greeting traces -/

/-- The job dispatched by `_on_actor_greeting` when the send counter is `n`,
the eval frequency is `freq` and the greeting actor is `a`. -/
def dispatchedJob (L : League) (n freq : Nat) (a : String) : Job :=
  let job0 := L.get_job_info
    (L.active_players_ids.getD (n % L.active_players_ids.length) "")
  let job1 := { job0 with job_no := n }
  let job2 := if 0 < n ∧ n % freq = 0 then { job1 with is_eval := true } else job1
  { job2 with actor_id := some a }

theorem on_actor_greeting_spec (L : League) (hP : L.active_players_ids ≠ [])
    (now : ℚ) (a : String) (s : CoordState) :
    on_actor_greeting L now a s =
      { state := { s with
          last_collect_time := some (s.last_collect_time.getD now)
          total_collect_time := some (s.total_collect_time.getD 0)
          total_send_jobs := s.total_send_jobs + 1
          running_jobs := dictSet (actorKey a)
            (dispatchedJob L s.total_send_jobs s.eval_frequency a)
            s.running_jobs }
        events := [.dispatch a
          (dispatchedJob L s.total_send_jobs s.eval_frequency a)]
        metrics := []
        err := none } := by
  have hlen : L.active_players_ids.length ≠ 0 := by
    simpa [List.length_eq_zero] using hP
  have hget : ∀ (i : Nat) (h : i < L.active_players_ids.length),
      L.active_players_ids.get ⟨i, h⟩ = L.active_players_ids.getD i "" := by
    intro i h
    simp [List.getD_eq_getElem?_getD, List.getElem?_eq_getElem h]
  simp only [on_actor_greeting, dispatchedJob, dif_neg hlen, hget]

/-- A pure greeting trace: each entry is a wall-clock time and the greeting
actor's id. -/
def greetings (gs : List (ℚ × String)) : List Input :=
  gs.map fun g => Input.greeting g.1 g.2

theorem run_greetings (L : League) (hP : L.active_players_ids ≠ [])
    (gs : List (ℚ × String)) (s : CoordState) :
    (runTrace L s (greetings gs)).err = none ∧
    (runTrace L s (greetings gs)).state.total_send_jobs =
      s.total_send_jobs + gs.length ∧
    (runTrace L s (greetings gs)).state.eval_frequency = s.eval_frequency ∧
    (runTrace L s (greetings gs)).metrics = [] ∧
    (runTrace L s (greetings gs)).events.length = gs.length ∧
    ∀ i, i < gs.length →
      (runTrace L s (greetings gs)).events.get? i =
        some (.dispatch (gs.getD i (0, "")).2
          (dispatchedJob L (s.total_send_jobs + i) s.eval_frequency
            (gs.getD i (0, "")).2)) := by
  induction gs generalizing s with
  | nil => simp [greetings, runTrace]
  | cons g rest ih =>
      have hstep := on_actor_greeting_spec L hP g.1 g.2 s
      have hrun : runTrace L s (greetings (g :: rest)) =
          { state := (runTrace L (on_actor_greeting L g.1 g.2 s).state
              (greetings rest)).state
            events := (on_actor_greeting L g.1 g.2 s).events ++
              (runTrace L (on_actor_greeting L g.1 g.2 s).state
                (greetings rest)).events
            metrics := (runTrace L (on_actor_greeting L g.1 g.2 s).state
                (greetings rest)).metrics
            err := (runTrace L (on_actor_greeting L g.1 g.2 s).state
                (greetings rest)).err } := by
        simp [greetings, runTrace, step, hstep]
      obtain ⟨ih1, ih2, ih3, ih4, ih5, ih6⟩ :=
        ih (on_actor_greeting L g.1 g.2 s).state
      have hs1 : (on_actor_greeting L g.1 g.2 s).state.total_send_jobs =
          s.total_send_jobs + 1 := by rw [hstep]
      have hs2 : (on_actor_greeting L g.1 g.2 s).state.eval_frequency =
          s.eval_frequency := by rw [hstep]
      have hev : (on_actor_greeting L g.1 g.2 s).events =
          [.dispatch g.2 (dispatchedJob L s.total_send_jobs
            s.eval_frequency g.2)] := by rw [hstep]
      refine ⟨by rw [hrun]; exact ih1, ?_, ?_, by rw [hrun]; exact ih4,
        ?_, ?_⟩
      · rw [hrun]
        show (runTrace L _ (greetings rest)).state.total_send_jobs = _
        rw [ih2, hs1]
        simp [Nat.add_assoc, Nat.add_comm 1 rest.length]
      · rw [hrun]
        show (runTrace L _ (greetings rest)).state.eval_frequency = _
        rw [ih3, hs2]
      · rw [hrun]
        show ((on_actor_greeting L g.1 g.2 s).events ++ _).length = _
        rw [List.length_append, ih5, hev]
        simp [Nat.add_comm]
      · intro i hi
        rw [hrun]
        show ((on_actor_greeting L g.1 g.2 s).events ++ _).get? i = _
        rw [hev]
        match i with
        | 0 => simp
        | Nat.succ i =>
            have hi' : i < rest.length := by
              simpa [Nat.succ_lt_succ_iff] using hi
            have h6 := ih6 i hi'
            rw [hs1, hs2] at h6
            simpa [Nat.add_assoc, Nat.add_comm 1 i] using h6

theorem dispatchedJob_job_no (L : League) (n freq : Nat) (a : String) :
    (dispatchedJob L n freq a).job_no = n := by
  simp only [dispatchedJob]
  split <;> rfl

theorem dispatchedJob_launch_player (L : League)
    (hLP : ∀ p, (L.get_job_info p).launch_player = p) (n freq : Nat)
    (a : String) :
    (dispatchedJob L n freq a).launch_player =
      L.active_players_ids.getD (n % L.active_players_ids.length) "" := by
  simp only [dispatchedJob]
  split <;> simp [hLP]

theorem dispatchedJob_is_eval (L : League)
    (hEV : ∀ p, (L.get_job_info p).is_eval = false) (n freq : Nat)
    (a : String) :
    ((dispatchedJob L n freq a).is_eval = true ↔ 0 < n ∧ n % freq = 0) := by
  simp only [dispatchedJob]
  split
  · next h => simp [h]
  · next h => simp [hEV, h]

/-! ### C1: round-robin dispatch with gapless sequence numbers -/

/-- C1: over any sequence of `N` greetings handled with a fixed non-empty
active-player list, the `N` dispatched jobs carry sequence numbers exactly
`0..N-1` in order (so unique, strictly increasing, gapless), and the `i`-th
job is requested for — and launched by — the active player at index
`i mod P`.  The league's `get_job_info` is assumed to stamp the requested
player id into the job's `launch_player` field (spec: the job is "created
by League Model on request" for that player). -/
theorem C1_round_robin (L : League) (hP : L.active_players_ids ≠ [])
    (hLP : ∀ p, (L.get_job_info p).launch_player = p)
    (gs : List (ℚ × String)) :
    (runTrace L init (greetings gs)).err = none ∧
    (runTrace L init (greetings gs)).events.length = gs.length ∧
    ((runTrace L init (greetings gs)).events.map fun e =>
        match e with
        | .dispatch _ j => j.job_no
        | _ => 0) = List.range gs.length ∧
    ∀ i, i < gs.length →
      (runTrace L init (greetings gs)).events.get? i =
        some (.dispatch (gs.getD i (0, "")).2
          (dispatchedJob L i 10 (gs.getD i (0, "")).2)) ∧
      (dispatchedJob L i 10 (gs.getD i (0, "")).2).job_no = i ∧
      (dispatchedJob L i 10 (gs.getD i (0, "")).2).launch_player =
        L.active_players_ids.getD (i % L.active_players_ids.length) "" := by
  obtain ⟨h1, _, _, _, h5, h6⟩ := run_greetings L hP gs init
  have h6' : ∀ i, i < gs.length →
      (runTrace L init (greetings gs)).events.get? i =
        some (.dispatch (gs.getD i (0, "")).2
          (dispatchedJob L i 10 (gs.getD i (0, "")).2)) := by
    intro i hi
    simpa [init] using h6 i hi
  refine ⟨h1, h5, ?_, fun i hi => ⟨h6' i hi, dispatchedJob_job_no _ _ _ _,
    dispatchedJob_launch_player L hLP _ _ _⟩⟩
  apply List.ext_get?
  intro i
  by_cases hi : i < gs.length
  · rw [List.get?_map, h6' i hi, List.get?_range hi]
    simp [dispatchedJob_job_no]
  · rw [List.get?_map, List.get?_eq_none.2 (by rw [h5]; omega),
      List.get?_eq_none.2 (by simpa using Nat.le_of_not_lt hi)]
    rfl

/-- A league with two active players whose `get_job_info` stamps the
requested player and a cleared eval flag, used as a concrete input. -/
def league2 : League :=
  { active_players_ids := ["p0", "p1"]
    get_job_info := fun p =>
      { launch_player := p, job_no := 0, is_eval := false, actor_id := none } }

/-- Three greetings: actors `a1`, `a2`, `a1`. -/
def gs3 : List (ℚ × String) := [(0, "a1"), (1, "a2"), (2, "a1")]

theorem C1_round_robin_witness :
    (runTrace league2 init (greetings gs3)).err = none ∧
    ((runTrace league2 init (greetings gs3)).events.map fun e =>
        match e with
        | .dispatch _ j => j.job_no
        | _ => 0) = List.range 3 ∧
    (dispatchedJob league2 2 10 "a1").job_no = 2 ∧
    (dispatchedJob league2 2 10 "a1").launch_player = "p0" :=
  ⟨(C1_round_robin league2 (by simp [league2]) (fun p => rfl) gs3).1,
   (C1_round_robin league2 (by simp [league2]) (fun p => rfl) gs3).2.2.1,
   ((C1_round_robin league2 (by simp [league2]) (fun p => rfl) gs3).2.2.2
      2 (by simp [gs3])).2.1,
   ((C1_round_robin league2 (by simp [league2]) (fun p => rfl) gs3).2.2.2
      2 (by simp [gs3])).2.2⟩

/-! ### C2: evaluation flag iff sequence number > 0 and divisible by 10 -/

/-- C2: a dispatched job's eval flag is set iff its sequence number is
positive and divisible by the eval frequency, whose value out of
`__init__` is 10; the league's `get_job_info` is assumed to produce jobs
with the flag cleared (spec: the flag is "derived: true every Nth job" by
the dispatcher). -/
theorem C2_eval_iff (L : League) (hP : L.active_players_ids ≠ [])
    (hEV : ∀ p, (L.get_job_info p).is_eval = false)
    (gs : List (ℚ × String)) :
    init.eval_frequency = 10 ∧
    ∀ i a j, (runTrace L init (greetings gs)).events.get? i =
        some (.dispatch a j) →
      j.job_no = i ∧ (j.is_eval = true ↔ 0 < i ∧ i % 10 = 0) := by
  obtain ⟨_, _, _, _, h5, h6⟩ := run_greetings L hP gs init
  refine ⟨rfl, fun i a j hij => ?_⟩
  have hi : i < gs.length := by
    by_contra hcon
    rw [List.get?_eq_none.2 (by rw [h5]; omega)] at hij
    exact Option.noConfusion hij
  have h6' := h6 i hi
  simp only [show init.total_send_jobs = 0 from rfl,
    show init.eval_frequency = 10 from rfl, Nat.zero_add] at h6'
  rw [hij] at h6'
  obtain ⟨ha, hj⟩ := Event.dispatch.inj (Option.some.inj h6')
  subst hj
  exact ⟨by simpa using dispatchedJob_job_no L i 10 _,
    by simpa [dispatchedJob_job_no] using
      dispatchedJob_is_eval L hEV i 10 (gs.getD i (0, "")).2⟩

/-- Eleven greetings, all from actor `b`. -/
def gs11 : List (ℚ × String) := List.replicate 11 ((0 : ℚ), "b")

theorem C2_eval_iff_witness :
    init.eval_frequency = 10 ∧
    ((dispatchedJob league2 10 10 "b").job_no = 10 ∧
      ((dispatchedJob league2 10 10 "b").is_eval = true ↔
        0 < 10 ∧ 10 % 10 = 0)) ∧
    ((dispatchedJob league2 9 10 "b").job_no = 9 ∧
      ((dispatchedJob league2 9 10 "b").is_eval = true ↔
        0 < 9 ∧ 9 % 10 = 0)) ∧
    ((dispatchedJob league2 0 10 "b").job_no = 0 ∧
      ((dispatchedJob league2 0 10 "b").is_eval = true ↔
        0 < 0 ∧ 0 % 10 = 0)) :=
  ⟨(C2_eval_iff league2 (by simp [league2]) (fun p => rfl) gs11).1,
   (C2_eval_iff league2 (by simp [league2]) (fun p => rfl) gs11).2
     10 "b" (dispatchedJob league2 10 10 "b") (by decide),
   (C2_eval_iff league2 (by simp [league2]) (fun p => rfl) gs11).2
     9 "b" (dispatchedJob league2 9 10 "b") (by decide),
   (C2_eval_iff league2 (by simp [league2]) (fun p => rfl) gs11).2
     0 "b" (dispatchedJob league2 0 10 "b") (by decide)⟩

/-! ### C3: greeting with zero active players -/

/-- C3: when the active-player list is empty, `_on_actor_greeting` raises a
`ZeroDivisionError` (from `total_send_jobs % 0`); no dispatch event is
emitted, no metric is written, and the running-jobs table is untouched. -/
theorem C3_zero_players (L : League) (hL : L.active_players_ids = [])
    (now : ℚ) (a : String) (s : CoordState) :
    (on_actor_greeting L now a s).err = some .zeroDivision ∧
    (on_actor_greeting L now a s).events = [] ∧
    (on_actor_greeting L now a s).metrics = [] ∧
    (on_actor_greeting L now a s).state.running_jobs = s.running_jobs := by
  simp [on_actor_greeting, hL]

/-- A league with no active players, used as a concrete input. -/
def emptyLeague : League :=
  { active_players_ids := []
    get_job_info := fun p =>
      { launch_player := p, job_no := 0, is_eval := false, actor_id := none } }

theorem C3_zero_players_witness :
    (on_actor_greeting emptyLeague 0 "a1" init).err = some .zeroDivision ∧
    (on_actor_greeting emptyLeague 0 "a1" init).events = [] ∧
    (on_actor_greeting emptyLeague 0 "a1" init).metrics = [] ∧
    (on_actor_greeting emptyLeague 0 "a1" init).state.running_jobs =
      init.running_jobs :=
  C3_zero_players emptyLeague rfl 0 "a1" init

/-! ### C9: the running-jobs table -/

/-- Option fallback: the first option if present, else the second. -/
def oOr {α : Type} (o o' : Option α) : Option α :=
  match o with
  | some x => some x
  | none => o'

theorem oOr_none {α : Type} (o : Option α) : oOr o none = o := by
  cases o <;> rfl

theorem oOr_oOr_some {α : Type} (o o' : Option α) (x : α) :
    oOr (oOr o (some x)) o' = oOr o (some x) := by
  cases o <;> rfl

theorem getLast?_cons_oOr {α : Type} (x : α) (l : List α) :
    (x :: l).getLast? = oOr l.getLast? (some x) := by
  induction l generalizing x with
  | nil => rfl
  | cons y ys ih =>
      rw [List.getLast?_cons_cons, ih y]
      cases hys : ys.getLast? <;> simp [oOr]

/-- The job carried by the last dispatch event addressed to actor `a`. -/
def lastDispatchTo (a : String) (evs : List Event) : Option Job :=
  (evs.filterMap fun e =>
    match e with
    | .dispatch a' j => if a' = a then some j else none
    | _ => none).getLast?

theorem lastDispatchTo_nil (a : String) : lastDispatchTo a [] = none := rfl

theorem lastDispatchTo_cons_dispatch (a b : String) (j : Job)
    (evs : List Event) :
    lastDispatchTo a (.dispatch b j :: evs) =
      if b = a then oOr (lastDispatchTo a evs) (some j)
      else lastDispatchTo a evs := by
  by_cases h : b = a <;>
    simp [lastDispatchTo, List.filterMap_cons, h, getLast?_cons_oOr]

/-- Unfolding of `runTrace` over a first input whose handler succeeds. -/
theorem runTrace_cons (L : League) (s : CoordState) (i : Input)
    (rest : List Input) (h : (step L s i).err = none) :
    runTrace L s (i :: rest) =
      { state := (runTrace L (step L s i).state rest).state
        events := (step L s i).events ++
          (runTrace L (step L s i).state rest).events
        metrics := (step L s i).metrics ++
          (runTrace L (step L s i).state rest).metrics
        err := (runTrace L (step L s i).state rest).err } := by
  simp only [runTrace, h]

theorem run_greetings_running_jobs (L : League)
    (hP : L.active_players_ids ≠ []) (gs : List (ℚ × String))
    (s : CoordState) :
    (∀ a, dictGet (actorKey a)
        (runTrace L s (greetings gs)).state.running_jobs =
      oOr (lastDispatchTo a (runTrace L s (greetings gs)).events)
        (dictGet (actorKey a) s.running_jobs)) ∧
    (∀ a, lastDispatchTo a (runTrace L s (greetings gs)).events = none ↔
      a ∉ gs.map Prod.snd) ∧
    ((s.running_jobs.map Prod.fst).Nodup →
      ((runTrace L s (greetings gs)).state.running_jobs.map Prod.fst).Nodup) := by
  induction gs generalizing s with
  | nil => simp [greetings, runTrace, lastDispatchTo_nil, oOr]
  | cons g rest ih =>
      have hstep := on_actor_greeting_spec L hP g.1 g.2 s
      have herr : (step L s (Input.greeting g.1 g.2)).err = none := by
        simp [step, hstep]
      have hrun := runTrace_cons L s (Input.greeting g.1 g.2)
        (greetings rest) herr
      have hgr : greetings (g :: rest) =
          Input.greeting g.1 g.2 :: greetings rest := rfl
      obtain ⟨ih1, ih2, ih3⟩ := ih (step L s (Input.greeting g.1 g.2)).state
      have hsrj : (step L s (Input.greeting g.1 g.2)).state.running_jobs =
          dictSet (actorKey g.2)
            (dispatchedJob L s.total_send_jobs s.eval_frequency g.2)
            s.running_jobs := by
        simp [step, hstep]
      have hsev : (step L s (Input.greeting g.1 g.2)).events =
          [.dispatch g.2
            (dispatchedJob L s.total_send_jobs s.eval_frequency g.2)] := by
        simp [step, hstep]
      refine ⟨?_, ?_, ?_⟩
      · intro a
        rw [hgr, hrun]
        show dictGet (actorKey a) (runTrace L _ (greetings rest)).state.running_jobs = _
        rw [ih1 a, hsrj, hsev]
        by_cases hab : g.2 = a
        · subst hab
          rw [dictGet_dictSet_self, List.singleton_append,
            lastDispatchTo_cons_dispatch, if_pos rfl, oOr_oOr_some]
        · rw [dictGet_dictSet_ne _ _
              (fun hk => hab (actorKey_injective hk).symm),
            List.singleton_append, lastDispatchTo_cons_dispatch,
            if_neg hab]
      · intro a
        rw [hgr, hrun]
        show lastDispatchTo a ((step L s (Input.greeting g.1 g.2)).events ++ _) = none ↔ _
        rw [hsev]
        by_cases hab : g.2 = a
        · subst hab
          rw [List.singleton_append, lastDispatchTo_cons_dispatch, if_pos rfl]
          simp only [List.map_cons, List.mem_cons]
          constructor
          · intro hcon
            cases hX : lastDispatchTo g.2
                (runTrace L (step L s (Input.greeting g.1 g.2)).state
                  (greetings rest)).events <;>
              rw [hX] at hcon <;> simp [oOr] at hcon
          · intro hcon
            simp at hcon
        · simp only [List.singleton_append, lastDispatchTo_cons_dispatch,
            if_neg hab, ih2 a, List.map_cons, List.mem_cons]
          constructor
          · intro h hc
            rcases hc with hc | hc
            · exact hab hc.symm
            · exact h hc
          · intro h hc
            exact h (Or.inr hc)
      · intro hnd
        rw [hgr, hrun]
        exact ih3 (by rw [hsrj]; exact nodup_keys_dictSet _ _ _ hnd)

/-- C9: after any sequence of greetings (non-empty player set), the
running-jobs table holds, for each actor, exactly the job of the most
recent dispatch to that actor: lookup under the actor's key equals the
last dispatch event addressed to it, an entry exists iff the actor has
greeted (entries are never removed, only overwritten), and the table's
keys are duplicate-free (one entry per actor). -/
theorem C9_running_jobs (L : League) (hP : L.active_players_ids ≠ [])
    (gs : List (ℚ × String)) :
    (∀ a, dictGet (actorKey a)
        (runTrace L init (greetings gs)).state.running_jobs =
      lastDispatchTo a (runTrace L init (greetings gs)).events) ∧
    (∀ a, dictGet (actorKey a)
        (runTrace L init (greetings gs)).state.running_jobs ≠ none ↔
      a ∈ gs.map Prod.snd) ∧
    ((runTrace L init (greetings gs)).state.running_jobs.map
      Prod.fst).Nodup := by
  obtain ⟨h1, h2, h3⟩ := run_greetings_running_jobs L hP gs init
  have h1' : ∀ a, dictGet (actorKey a)
      (runTrace L init (greetings gs)).state.running_jobs =
      lastDispatchTo a (runTrace L init (greetings gs)).events := by
    intro a
    rw [h1 a]
    show oOr _ (dictGet (actorKey a) []) = _
    rw [show dictGet (actorKey a) [] = none from rfl, oOr_none]
  refine ⟨h1', fun a => ?_, h3 (by simp [init])⟩
  rw [h1' a]
  constructor
  · intro h
    by_contra hc
    exact h ((h2 a).2 hc)
  · intro h hc
    exact (h2 a).1 hc h

theorem C9_running_jobs_witness :
    (dictGet (actorKey "a1")
        (runTrace league2 init (greetings gs3)).state.running_jobs =
      lastDispatchTo "a1" (runTrace league2 init (greetings gs3)).events) ∧
    (dictGet (actorKey "a2")
        (runTrace league2 init (greetings gs3)).state.running_jobs ≠ none ↔
      "a2" ∈ gs3.map Prod.snd) ∧
    ((runTrace league2 init (greetings gs3)).state.running_jobs.map
      Prod.fst).Nodup :=
  ⟨(C9_running_jobs league2 (by simp [league2]) gs3).1 "a1",
   (C9_running_jobs league2 (by simp [league2]) gs3).2.1 "a2",
   (C9_running_jobs league2 (by simp [league2]) gs3).2.2⟩

/-! ### C4: zero elapsed time in the throughput tracker -/

/-- A batch holding one environment group with three trajectories. -/
def batch3 : DataBatch := { train_data := [{ trajectories := [(), (), ()] }] }

/-- C4 counterexample: on the data-arrival trace at times 0, 700, 800, 800
the fourth call sees a zero elapsed time after warm-up and the handler
raises an uncaught `ZeroDivisionError` instead of skipping the sample —
the division is not guarded. -/
theorem C4_counterexample :
    (runTrace league2 init
      [.dataArrived 0 batch3, .dataArrived 700 batch3,
       .dataArrived 800 batch3, .dataArrived 800 batch3]).err =
      some .zeroDivision := by
  norm_num [runTrace, step, count_data, init, countTraj, batch3]

/-- C4 amended: when the elapsed time since the previous call is zero
after warm-up, the division computing the instantaneous rate is NOT
guarded: `_count_data` raises an uncaught `ZeroDivisionError`; no metric
sample is published for that call only because the failure happens while
formatting the log line, before the writer calls. -/
theorem C4_unguarded_zero_elapsed (now : ℚ) (d : DataBatch) (s : CoordState)
    (hfin : s.pre_collect_finished = true)
    (hlast : s.last_get_data_time = some now) :
    (count_data now d s).err = some .zeroDivision ∧
    (count_data now d s).metrics = [] := by
  simp [count_data, hfin, hlast]

/-- The tracker state after the warm-up trace at times 0, 700, 800. -/
def warmedState : CoordState :=
  (runTrace league2 init
    [.dataArrived 0 batch3, .dataArrived 700 batch3,
     .dataArrived 800 batch3]).state

theorem C4_unguarded_zero_elapsed_witness :
    (count_data 800 batch3 warmedState).err = some .zeroDivision ∧
    (count_data 800 batch3 warmedState).metrics = [] :=
  C4_unguarded_zero_elapsed 800 batch3 warmedState
    (by norm_num [warmedState, runTrace, step, count_data, init, countTraj,
      batch3])
    (by norm_num [warmedState, runTrace, step, count_data, init, countTraj,
      batch3])

/-! ### C5: counter monotonicity -/

/-- C5 counterexample: the cumulative data-ingest timer is NOT
monotonically non-decreasing: it is reset at the warm-up transition
(700 seconds accumulated before the third call, 100 after it). -/
theorem C5_counterexample :
    (runTrace league2 init
        [.dataArrived 0 batch3, .dataArrived 700 batch3,
         .dataArrived 800 batch3]).state.total_get_data_time <
      (runTrace league2 init
        [.dataArrived 0 batch3,
         .dataArrived 700 batch3]).state.total_get_data_time := by
  norm_num [runTrace, step, count_data, init, countTraj, batch3]

/-- The clock assumption for one handler invocation: the invocation's
wall-clock time is not before the stored reference it is diffed against. -/
def clockOK (s : CoordState) : Input → Prop
  | .greeting _ _ => True
  | .actorJob now _ => ∀ t, s.last_collect_time = some t → t ≤ now
  | .dataArrived now _ => ∀ t, s.last_get_data_time = some t → t ≤ now
  | .learnerMeta _ => True

/-- C5 amended: under a monotone clock, four of the five counters — total
jobs sent, total jobs received, cumulative collect time, cumulative
trajectory count — are non-decreasing across every handler invocation; the
fifth, the cumulative data-ingest timer, is non-decreasing at every
invocation EXCEPT the single warm-up transition, where it is reset. -/
theorem C5_counters_monotone (L : League) (s : CoordState) (inp : Input)
    (hclk : clockOK s inp) :
    s.total_send_jobs ≤ (step L s inp).state.total_send_jobs ∧
    s.total_recv_jobs ≤ (step L s inp).state.total_recv_jobs ∧
    s.total_collect_time.getD 0 ≤
      (step L s inp).state.total_collect_time.getD 0 ∧
    s.traj_num ≤ (step L s inp).state.traj_num ∧
    (s.total_get_data_time ≤ (step L s inp).state.total_get_data_time ∨
      (s.pre_collect_finished = false ∧
        (step L s inp).state.pre_collect_finished = true)) := by
  cases inp with
  | greeting now a =>
      by_cases h : L.active_players_ids.length = 0 <;>
        cases hc : s.total_collect_time <;>
          simp [step, on_actor_greeting, h, hc]
  | actorJob now j =>
      cases hl : s.last_collect_time with
      | none => cases hc : s.total_collect_time <;>
          simp [step, on_actor_job, hl, hc]
      | some ot =>
          have hot : ot ≤ now := hclk ot hl
          cases hc : s.total_collect_time with
          | none => simp [step, on_actor_job, hl, hc]
          | some tct =>
              simp only [step, on_actor_job, hl, hc]
              refine ⟨le_refl _, Nat.le_succ _, ?_, le_refl _,
                Or.inl (le_refl _)⟩
              simp only [Option.getD_some]
              linarith
  | dataArrived now d =>
      have hcur : 0 ≤ now - (s.last_get_data_time.getD now) := by
        cases hl : s.last_get_data_time with
        | none => simp
        | some t => simpa using hclk t hl
      by_cases hflip : 60 * 10 ≤ s.total_get_data_time ∧
          s.pre_collect_finished = false
      · refine ⟨?_, ?_, ?_, ?_, Or.inr ⟨hflip.2, ?_⟩⟩ <;>
          · simp only [step, count_data, if_pos hflip]
            split_ifs <;> simp
      · have h2 : s.total_get_data_time ≤ s.total_get_data_time +
            (now - s.last_get_data_time.getD now) := by linarith
        refine ⟨?_, ?_, ?_, ?_, Or.inl ?_⟩ <;>
          · simp only [step, count_data, if_neg hflip]
            split_ifs <;> simp [h2]
  | learnerMeta m => simp [step, on_learner_meta]

theorem C5_counters_monotone_witness :
    init.total_send_jobs ≤
      (step league2 init (.dataArrived 5 batch3)).state.total_send_jobs ∧
    init.total_recv_jobs ≤
      (step league2 init (.dataArrived 5 batch3)).state.total_recv_jobs ∧
    init.total_collect_time.getD 0 ≤
      (step league2 init
        (.dataArrived 5 batch3)).state.total_collect_time.getD 0 ∧
    init.traj_num ≤
      (step league2 init (.dataArrived 5 batch3)).state.traj_num ∧
    (init.total_get_data_time ≤
        (step league2 init (.dataArrived 5 batch3)).state.total_get_data_time ∨
      (init.pre_collect_finished = false ∧
        (step league2 init
          (.dataArrived 5 batch3)).state.pre_collect_finished = true)) :=
  C5_counters_monotone league2 init (.dataArrived 5 batch3)
    (fun t ht => by simp [init] at ht)

/-! ### C6: where the collect-time reference is initialised -/

/-- A job value used as a concrete input. -/
def job0 : Job :=
  { launch_player := "p0", job_no := 0, is_eval := false, actor_id := none }

/-- A pure job-completion trace: each entry is a wall-clock time and the
finished job. -/
def jobArrivals (js : List (ℚ × Job)) : List Input :=
  js.map fun u => Input.actorJob u.1 u.2

theorem on_actor_job_spec (now : ℚ) (j : Job) (s : CoordState) (ot tct : ℚ)
    (hl : s.last_collect_time = some ot)
    (hc : s.total_collect_time = some tct) :
    on_actor_job now j s =
      { state := { s with
          total_recv_jobs := s.total_recv_jobs + 1
          last_collect_time := some now
          total_collect_time := some (tct + (now - ot)) }
        events := [.updatePayoff j]
        metrics := [{ tag := "coordinator_collect_job_speed-total_recv_jobs"
                      value := (tct + (now - ot)) /
                        ((s.total_recv_jobs + 1 : Nat) : ℚ)
                      step := ((s.total_recv_jobs + 1 : Nat) : ℚ) }]
        err := none } := by
  simp [on_actor_job, hl, hc]

theorem run_jobs (L : League) (js : List (ℚ × Job)) (s : CoordState)
    (t c : ℚ) (hl : s.last_collect_time = some t)
    (hc : s.total_collect_time = some c) :
    (runTrace L s (jobArrivals js)).err = none ∧
    (runTrace L s (jobArrivals js)).state.total_recv_jobs =
      s.total_recv_jobs + js.length ∧
    (runTrace L s (jobArrivals js)).state.last_collect_time =
      some ((js.map Prod.fst).getLastD t) ∧
    (runTrace L s (jobArrivals js)).state.total_collect_time =
      some (c + ((js.map Prod.fst).getLastD t - t)) ∧
    (js ≠ [] → (runTrace L s (jobArrivals js)).metrics.getLast? =
      some { tag := "coordinator_collect_job_speed-total_recv_jobs"
             value := (c + ((js.map Prod.fst).getLastD t - t)) /
               ((s.total_recv_jobs + js.length : Nat) : ℚ)
             step := ((s.total_recv_jobs + js.length : Nat) : ℚ) }) := by
  induction js generalizing s t c with
  | nil => simp [jobArrivals, runTrace, hl, hc]
  | cons p rest ih =>
      have hstep := on_actor_job_spec p.1 p.2 s t c hl hc
      have herr : (step L s (Input.actorJob p.1 p.2)).err = none := by
        simp [step, hstep]
      have hrun := runTrace_cons L s (Input.actorJob p.1 p.2)
        (jobArrivals rest) herr
      have hja : jobArrivals (p :: rest) =
          Input.actorJob p.1 p.2 :: jobArrivals rest := rfl
      have hl' : (step L s (Input.actorJob p.1 p.2)).state.last_collect_time =
          some p.1 := by simp [step, hstep]
      have hc' : (step L s (Input.actorJob p.1 p.2)).state.total_collect_time =
          some (c + (p.1 - t)) := by simp [step, hstep]
      have hrecv' : (step L s (Input.actorJob p.1 p.2)).state.total_recv_jobs =
          s.total_recv_jobs + 1 := by simp [step, hstep]
      have hm : (step L s (Input.actorJob p.1 p.2)).metrics =
          [{ tag := "coordinator_collect_job_speed-total_recv_jobs"
             value := (c + (p.1 - t)) / ((s.total_recv_jobs + 1 : Nat) : ℚ)
             step := ((s.total_recv_jobs + 1 : Nat) : ℚ) }] := by
        simp [step, hstep]
      obtain ⟨ih1, ih2, ih3, ih4, ih5⟩ :=
        ih (step L s (Input.actorJob p.1 p.2)).state p.1 (c + (p.1 - t))
          hl' hc'
      refine ⟨by rw [hja, hrun]; exact ih1, ?_, ?_, ?_, ?_⟩
      · rw [hja, hrun]
        show (runTrace L _ (jobArrivals rest)).state.total_recv_jobs = _
        rw [ih2, hrecv']
        simp only [List.length_cons]
        omega
      · rw [hja, hrun]
        show (runTrace L _ (jobArrivals rest)).state.last_collect_time = _
        rw [ih3, List.map_cons, List.getLastD_cons]
      · rw [hja, hrun]
        show (runTrace L _ (jobArrivals rest)).state.total_collect_time = _
        rw [ih4]
        congr 1
        rw [List.map_cons, List.getLastD_cons]
        ring
      · intro _
        rw [hja, hrun]
        show ((step L s (Input.actorJob p.1 p.2)).metrics ++ _).getLast? = _
        rw [hm]
        by_cases hre : rest = []
        · subst hre
          simp only [jobArrivals, List.map_nil, runTrace, List.append_nil]
          simp [List.getLastD_cons]
        · have h5 := ih5 hre
          rw [List.singleton_append, getLast?_cons_oOr, h5]
          show oOr (some _) _ = _
          rw [show ∀ (x : Option Metric) (y : Metric),
              oOr (some y) x = some y from fun x y => rfl]
          congr 1
          rw [hrecv']
          have hK : s.total_recv_jobs + 1 + rest.length =
              s.total_recv_jobs + (p :: rest).length := by
            simp
            omega
          rw [hK]
          congr 1
          rw [List.map_cons, List.getLastD_cons]
          ring

/-- C6 counterexample: one greeting at time 0 followed by a single job
completion at time 5 yields a reported average of 5 s/job, not 0: the
first completion DOES contribute a gap (measured from the greeting), so
the claim's "first completion contributes no gap" is false on the code. -/
theorem C6_counterexample :
    (runTrace league2 init
        [Input.greeting 0 "a1", Input.actorJob 5 job0]).metrics =
      [{ tag := "coordinator_collect_job_speed-total_recv_jobs"
         value := 5, step := 1 }] ∧ ((5 : ℚ) ≠ 0) := by
  constructor
  · norm_num [runTrace, step, on_actor_greeting, on_actor_job, init, league2,
      dictSet, actorKey]
  · norm_num

/-- C6 amended: the previous-completion reference is initialised at the
FIRST GREETING, not lazily at the first completion; the first completion
contributes the gap since that greeting.  Starting from a fresh
coordinator, after one greeting at time `t0` and `K ≥ 1` completions at
times `u_1..u_K`, the accumulated collect time telescopes to `u_K - t0`
(the greeting-to-first-completion gap plus the `K-1` inter-completion
gaps) and the reported average seconds-per-job is `(u_K - t0) / K`. -/
theorem C6_first_gap_from_greeting (L : League)
    (hP : L.active_players_ids ≠ []) (t0 : ℚ) (a : String)
    (js : List (ℚ × Job)) (hjs : js ≠ []) :
    (runTrace L init (Input.greeting t0 a :: jobArrivals js)).err = none ∧
    (runTrace L init
      (Input.greeting t0 a :: jobArrivals js)).state.total_recv_jobs =
      js.length ∧
    (runTrace L init
      (Input.greeting t0 a :: jobArrivals js)).state.total_collect_time =
      some ((js.map Prod.fst).getLastD t0 - t0) ∧
    (runTrace L init
      (Input.greeting t0 a :: jobArrivals js)).metrics.getLast? =
      some { tag := "coordinator_collect_job_speed-total_recv_jobs"
             value := ((js.map Prod.fst).getLastD t0 - t0) /
               ((js.length : Nat) : ℚ)
             step := ((js.length : Nat) : ℚ) } := by
  have hstep := on_actor_greeting_spec L hP t0 a init
  have herr : (step L init (Input.greeting t0 a)).err = none := by
    simp [step, hstep]
  have hrun := runTrace_cons L init (Input.greeting t0 a)
    (jobArrivals js) herr
  have hl' : (step L init (Input.greeting t0 a)).state.last_collect_time =
      some t0 := by
    simp [step, hstep, show init.last_collect_time = none from rfl]
  have hc' : (step L init (Input.greeting t0 a)).state.total_collect_time =
      some 0 := by
    simp [step, hstep, show init.total_collect_time = none from rfl]
  have hrecv' : (step L init (Input.greeting t0 a)).state.total_recv_jobs =
      0 := by
    simp [step, hstep, show init.total_recv_jobs = 0 from rfl]
  have hm : (step L init (Input.greeting t0 a)).metrics = [] := by
    simp [step, hstep]
  obtain ⟨h1, h2, h3, h4, h5⟩ :=
    run_jobs L js (step L init (Input.greeting t0 a)).state t0 0 hl' hc'
  refine ⟨by rw [hrun]; exact h1, ?_, ?_, ?_⟩
  · rw [hrun]
    show (runTrace L _ (jobArrivals js)).state.total_recv_jobs = _
    rw [h2, hrecv']
    omega
  · rw [hrun]
    show (runTrace L _ (jobArrivals js)).state.total_collect_time = _
    rw [h4]
    congr 1
    ring
  · rw [hrun]
    show ((step L init (Input.greeting t0 a)).metrics ++ _).getLast? = _
    rw [hm, List.nil_append, h5 hjs, hrecv']
    simp

theorem C6_first_gap_from_greeting_witness :
    (runTrace league2 init
      (Input.greeting 0 "a1" :: jobArrivals [(5, job0)])).err = none ∧
    (runTrace league2 init
      (Input.greeting 0 "a1" ::
        jobArrivals [(5, job0)])).state.total_recv_jobs = 1 ∧
    (runTrace league2 init
      (Input.greeting 0 "a1" ::
        jobArrivals [(5, job0)])).state.total_collect_time =
      some (([(5 : ℚ)].getLastD 0) - 0) ∧
    (runTrace league2 init
      (Input.greeting 0 "a1" :: jobArrivals [(5, job0)])).metrics.getLast? =
      some { tag := "coordinator_collect_job_speed-total_recv_jobs"
             value := (([(5 : ℚ)].getLastD 0) - 0) / ((1 : Nat) : ℚ)
             step := ((1 : Nat) : ℚ) } := by
  have h := C6_first_gap_from_greeting league2 (by simp [league2]) 0 "a1"
    [(5, job0)] (by simp)
  simpa using h

/-! ### C7: the warm-up gate of the throughput tracker -/

/-- A pure data-arrival trace: each entry is a wall-clock time and the
arriving batch. -/
def dataTrace (ds : List (ℚ × DataBatch)) : List Input :=
  ds.map fun d => Input.dataArrived d.1 d.2

/-- Unfolding of `runTrace` over a first input whose handler raises. -/
theorem runTrace_cons_err (L : League) (s : CoordState) (i : Input)
    (rest : List Input) (e : PyErr) (h : (step L s i).err = some e) :
    runTrace L s (i :: rest) =
      { state := (step L s i).state, events := (step L s i).events
        metrics := (step L s i).metrics, err := some e } := by
  simp only [runTrace, h]

theorem count_data_flag_monotone (now : ℚ) (d : DataBatch) (s : CoordState)
    (h : s.pre_collect_finished = true) :
    (count_data now d s).state.pre_collect_finished = true := by
  simp only [count_data, h]
  norm_num
  split_ifs <;> rfl

/-- Behaviour of `_count_data` during warm-up, below the threshold: the timer
accumulates, nothing is published, the flag stays unset. -/
theorem count_data_warmup_spec (now : ℚ) (d : DataBatch) (s : CoordState)
    (hpre : s.pre_collect_finished = false)
    (hlt : ¬60 * 10 ≤ s.total_get_data_time) :
    count_data now d s =
      { state := { s with
          last_get_data_time := some now
          total_get_data_time :=
            s.total_get_data_time + (now - s.last_get_data_time.getD now) }
        events := [], metrics := [], err := none } := by
  simp [count_data, hpre, hlt]

/-- Behaviour of `_count_data` at the warm-up transition: the flag is set and the timer
is reset to zero before the current gap is accumulated. -/
theorem count_data_flip_spec (now : ℚ) (d : DataBatch) (s : CoordState)
    (hpre : s.pre_collect_finished = false)
    (hge : 60 * 10 ≤ s.total_get_data_time) :
    (count_data now d s).state.pre_collect_finished = true ∧
    (count_data now d s).state.total_get_data_time =
      now - s.last_get_data_time.getD now := by
  constructor <;>
    · simp only [count_data, hpre, hge]
      norm_num
      split_ifs <;> simp

theorem run_data_flag_monotone (L : League) (ds : List (ℚ × DataBatch))
    (s : CoordState) (h : s.pre_collect_finished = true) :
    (runTrace L s (dataTrace ds)).state.pre_collect_finished = true := by
  induction ds generalizing s with
  | nil => simpa [dataTrace, runTrace]
  | cons p rest ih =>
      have hd : dataTrace (p :: rest) =
          Input.dataArrived p.1 p.2 :: dataTrace rest := rfl
      have hflag := count_data_flag_monotone p.1 p.2 s h
      cases herr : (step L s (Input.dataArrived p.1 p.2)).err with
      | none =>
          rw [hd, runTrace_cons L s _ _ herr]
          exact ih _ hflag
      | some e =>
          rw [hd, runTrace_cons_err L s _ _ e herr]
          exact hflag

theorem run_data_no_metrics_before (L : League)
    (ds : List (ℚ × DataBatch)) (s : CoordState)
    (h : (runTrace L s (dataTrace ds)).state.pre_collect_finished = false) :
    (runTrace L s (dataTrace ds)).metrics = [] := by
  induction ds generalizing s with
  | nil => simp [dataTrace, runTrace]
  | cons p rest ih =>
      have hd : dataTrace (p :: rest) =
          Input.dataArrived p.1 p.2 :: dataTrace rest := rfl
      by_cases hpre : s.pre_collect_finished = true
      · exfalso
        have hflag := count_data_flag_monotone p.1 p.2 s hpre
        cases herr : (step L s (Input.dataArrived p.1 p.2)).err with
        | none =>
            have h' : (runTrace L (step L s (Input.dataArrived p.1 p.2)).state
                (dataTrace rest)).state.pre_collect_finished = false := by
              rw [hd, runTrace_cons L s _ _ herr] at h
              exact h
            have h2 : (runTrace L (step L s (Input.dataArrived p.1 p.2)).state
                (dataTrace rest)).state.pre_collect_finished = true :=
              run_data_flag_monotone L rest _ hflag
            rw [h2] at h'
            exact Bool.noConfusion h'
        | some e =>
            have h' : (step L s
                (Input.dataArrived p.1 p.2)).state.pre_collect_finished =
                false := by
              rw [hd, runTrace_cons_err L s _ _ e herr] at h
              exact h
            have h2 : (step L s
                (Input.dataArrived p.1 p.2)).state.pre_collect_finished =
                true := hflag
            rw [h2] at h'
            exact Bool.noConfusion h'
      · have hpre' : s.pre_collect_finished = false := by simpa using hpre
        by_cases hge : 60 * 10 ≤ s.total_get_data_time
        · exfalso
          have hflag := (count_data_flip_spec p.1 p.2 s hpre' hge).1
          cases herr : (step L s (Input.dataArrived p.1 p.2)).err with
          | none =>
              have h' : (runTrace L
                  (step L s (Input.dataArrived p.1 p.2)).state
                  (dataTrace rest)).state.pre_collect_finished = false := by
                rw [hd, runTrace_cons L s _ _ herr] at h
                exact h
              have h2 : (runTrace L
                  (step L s (Input.dataArrived p.1 p.2)).state
                  (dataTrace rest)).state.pre_collect_finished = true :=
                run_data_flag_monotone L rest _ hflag
              rw [h2] at h'
              exact Bool.noConfusion h'
          | some e =>
              have h' : (step L s
                  (Input.dataArrived p.1 p.2)).state.pre_collect_finished =
                  false := by
                rw [hd, runTrace_cons_err L s _ _ e herr] at h
                exact h
              have h2 : (step L s
                  (Input.dataArrived p.1 p.2)).state.pre_collect_finished =
                  true := hflag
              rw [h2] at h'
              exact Bool.noConfusion h'
        · have hspec := count_data_warmup_spec p.1 p.2 s hpre' hge
          have herr : (step L s (Input.dataArrived p.1 p.2)).err = none := by
            simp [step, hspec]
          rw [hd, runTrace_cons L s _ _ herr] at h ⊢
          show (step L s (Input.dataArrived p.1 p.2)).metrics ++ _ = _
          rw [show (step L s (Input.dataArrived p.1 p.2)).metrics = []
            from by simp [step, hspec], List.nil_append]
          exact ih _ h

/-- C7: (i) over any data-arrival trace from a fresh tracker, if the
pre-collection flag is still unset at the end then no rate metric was ever
published — metrics only appear after the 600-second warm-up is crossed;
(ii) the flag is monotone (once set it is never cleared), so it flips
false→true at most once in an instance's lifetime; (iii) the flag flips
exactly on the first call that starts with ≥ 600 seconds accumulated, and
at that single transition the timer is reset to zero before the current
gap is accumulated. -/
theorem C7_warmup_gate (L : League) :
    (∀ ds : List (ℚ × DataBatch),
      (runTrace L init (dataTrace ds)).state.pre_collect_finished = false →
      (runTrace L init (dataTrace ds)).metrics = []) ∧
    (∀ (now : ℚ) (d : DataBatch) (s : CoordState),
      s.pre_collect_finished = true →
      (count_data now d s).state.pre_collect_finished = true) ∧
    (∀ (now : ℚ) (d : DataBatch) (s : CoordState),
      s.pre_collect_finished = false →
      ((count_data now d s).state.pre_collect_finished = true ↔
        60 * 10 ≤ s.total_get_data_time) ∧
      (60 * 10 ≤ s.total_get_data_time →
        (count_data now d s).state.total_get_data_time =
          now - s.last_get_data_time.getD now)) := by
  refine ⟨fun ds h => run_data_no_metrics_before L ds init h,
    fun now d s h => count_data_flag_monotone now d s h,
    fun now d s hpre => ⟨⟨?_, ?_⟩, fun hge =>
      (count_data_flip_spec now d s hpre hge).2⟩⟩
  · intro hflag
    by_contra hlt
    rw [count_data_warmup_spec now d s hpre hlt] at hflag
    simp [hpre] at hflag
  · intro hge
    exact (count_data_flip_spec now d s hpre hge).1

/-- The tracker state after data arrivals at times 0 and 700: 700 seconds
accumulated, flag still unset. -/
def state700 : CoordState :=
  (runTrace league2 init
    [.dataArrived 0 batch3, .dataArrived 700 batch3]).state

theorem C7_warmup_gate_witness :
    (runTrace league2 init (dataTrace [])).metrics = [] ∧
    (count_data 800 batch3 warmedState).state.pre_collect_finished = true ∧
    ((count_data 800 batch3 state700).state.pre_collect_finished = true ↔
      60 * 10 ≤ state700.total_get_data_time) ∧
    (60 * 10 ≤ state700.total_get_data_time →
      (count_data 800 batch3 state700).state.total_get_data_time =
        800 - state700.last_get_data_time.getD 800) :=
  ⟨(C7_warmup_gate league2).1 [] rfl,
   (C7_warmup_gate league2).2.1 800 batch3 warmedState
     (by norm_num [warmedState, runTrace, step, count_data, init, countTraj,
       batch3]),
   ((C7_warmup_gate league2).2.2 800 batch3 state700
     (by norm_num [state700, runTrace, step, count_data, init, countTraj,
       batch3])).1,
   ((C7_warmup_gate league2).2.2 800 batch3 state700
     (by norm_num [state700, runTrace, step, count_data, init, countTraj,
       batch3])).2⟩

/-! ### C8: the x-axis of the published rate samples -/

/-- C8: the code, not the claim, is wrong here.  On the trace at times
0, 700, 800 the third call publishes the two post-warm-up rate samples
with `global_step = 100` — the cumulative data-ingest elapsed time — while
the all-time trajectory count is 3.  The metric names end in
`total_recv_trajs`, and the only other `add_scalar` call in the file
(`_on_actor_job`) keys its sample by the quantity its name ends in, so the
spec's "keyed by the all-time trajectory count" is the intent and passing
`self._total_get_data_time` is the slip. -/
theorem C8_metric_step_is_time_not_traj :
    ((runTrace league2 init
        [.dataArrived 0 batch3, .dataArrived 700 batch3,
         .dataArrived 800 batch3]).metrics.map Metric.step = [100, 100]) ∧
    (runTrace league2 init
        [.dataArrived 0 batch3, .dataArrived 700 batch3,
         .dataArrived 800 batch3]).state.traj_num = 3 ∧
    ((100 : ℚ) ≠ ((3 : Nat) : ℚ)) := by
  refine ⟨?_, ?_, by norm_num⟩ <;>
    norm_num [runTrace, step, count_data, init, countTraj, batch3]

/-! ### C10: job completion before any greeting -/

/-- C10: if `_on_actor_job` runs while `last_collect_time` is still `None`
(no greeting has ever been handled), it raises a `TypeError`; at the point
of failure `total_recv_jobs` has already been incremented, and
`league.update_payoff` is never reached (no event emitted), so the handler
does not leave the state unchanged on this error. -/
theorem C10_job_before_any_greeting (now : ℚ) (job : Job) (s : CoordState)
    (h : s.last_collect_time = none) :
    (on_actor_job now job s).err = some .typeError ∧
    (on_actor_job now job s).state.total_recv_jobs = s.total_recv_jobs + 1 ∧
    (on_actor_job now job s).events = [] ∧
    (on_actor_job now job s).metrics = [] ∧
    (on_actor_job now job s).state ≠ s := by
  refine ⟨by simp [on_actor_job, h], by simp [on_actor_job, h],
    by simp [on_actor_job, h], by simp [on_actor_job, h], ?_⟩
  intro heq
  have := congrArg CoordState.total_recv_jobs heq
  simp [on_actor_job, h] at this

theorem C10_job_before_any_greeting_witness :
    (on_actor_job 0 job0 init).err = some .typeError ∧
    (on_actor_job 0 job0 init).state.total_recv_jobs =
      init.total_recv_jobs + 1 ∧
    (on_actor_job 0 job0 init).events = [] ∧
    (on_actor_job 0 job0 init).metrics = [] ∧
    (on_actor_job 0 job0 init).state ≠ init :=
  C10_job_before_any_greeting 0 job0 init rfl

end LeagueCoordinator
